import Mathlib

/-!
Verification of the pilates 09:30 auto-booking scripts.

The repository holds three near-identical scripts:
* `PreciseTimingPilatesBooking` (v6.1, first half of booking-script.js) — the
  latest variant, with the current-weekday weekend gate;
* `PilatesBooking` (second half of booking-script.js) — the earlier variant,
  with the target-date weekend gate and the jittered conflict backoff;
* `GitHubOptimizedPilatesBooking` (the unnamed source file) — a CI-tuned
  variant close to v6.1.

Definitions below are shallow embeddings of those scripts.  JavaScript
`String.prototype.includes` becomes `includes`; the mutable instance flags
become the `Flags` record threaded explicitly; the in-page DOM scan of
`find0930ClassAndBook` becomes a pure function over a list of table rows.
-/

/-- Does the first character list begin the second one? -/
def charListLeads : List Char → List Char → Bool
  | [], _ => true
  | _ :: _, [] => false
  | a :: as, b :: bs => a == b && charListLeads as bs

/-- Does `pat` occur contiguously inside `s`? -/
def charListHas (pat : List Char) : List Char → Bool
  | [] => charListLeads pat []
  | b :: bs => charListLeads pat (b :: bs) || charListHas pat bs

/-- JavaScript `s.includes(pat)`: substring containment test. -/
def includes (s pat : String) : Bool :=
  charListHas pat.data s.data

/-- The four mutable status flags of the booking objects
(`bookingSuccess`, `isWaitingReservation`, `hasConflictError`,
`hasTimeoutError`).  The v6.1 constructor declares only the first three;
the other two variants declare all four. -/
structure Flags where
  bookingSuccess : Bool
  isWaitingReservation : Bool
  hasConflictError : Bool
  hasTimeoutError : Bool
deriving Repr, DecidableEq

/-- Flag values installed by the constructors: everything false. -/
def constructorFlags : Flags :=
  { bookingSuccess := false, isWaitingReservation := false
    hasConflictError := false, hasTimeoutError := false }

/-- Reset performed at the top of v6.1 `find0930ClassAndBook`
(line `this.hasConflictError = false;`).  Only the conflict flag is cleared. -/
def attemptFlagReset (f : Flags) : Flags :=
  { f with hasConflictError := false }

/-- Reset performed at the top of `find0930ClassAndBook` in the
`PilatesBooking` and GitHub-optimized variants: conflict and timeout
flags are cleared. -/
def attemptFlagResetPB (f : Flags) : Flags :=
  { f with hasConflictError := false, hasTimeoutError := false }

/-- State visible to the per-attempt dialog handler: the instance flags plus
the handler-local `dialogHandled` boolean (fresh `false` on every attempt). -/
structure DialogState where
  flags : Flags
  dialogHandled : Bool
deriving Repr, DecidableEq

/-- One invocation of the v6.1 `dialogHandler` on a dialog with text
`message`.  If a dialog was already handled this attempt, the dialog is
accepted with no state change.  Otherwise the message is classified by the
if-chain of the source, first match wins:
capacity-exceeded + waitlist, weekly-count-completed, simultaneous-request /
try-again-shortly, then booking + (complete or success). -/
def dialogHandlerStep (st : DialogState) (message : String) : DialogState :=
  if st.dialogHandled then st
  else
    let st1 : DialogState := { st with dialogHandled := true }
    if includes message "정원이 초과" && includes message "대기예약" then
      { st1 with flags :=
          { st1.flags with isWaitingReservation := true, bookingSuccess := true } }
    else if includes message "요일별 예약횟수가 완료" then
      { st1 with flags := { st1.flags with bookingSuccess := true } }
    else if includes message "동시신청" || includes message "잠시 후" then
      { st1 with flags := { st1.flags with hasConflictError := true } }
    else if includes message "예약" &&
            (includes message "완료" || includes message "성공") then
      { st1 with flags := { st1.flags with bookingSuccess := true } }
    else st1

/-- All dialogs raised during one attempt, processed in order. -/
def processDialogs (st : DialogState) (msgs : List String) : DialogState :=
  msgs.foldl dialogHandlerStep st

/-! ## The in-page scan of `find0930ClassAndBook`

The `page.evaluate` callback walks every table row, filters for the morning
09:30 row, locates the time cell, picks the action cell (the next cell if its
text mentions booking / waiting / completed / unavailable, else the last
cell), and branches on the action text.  Clicking the action link is recorded
as a `Click.slot` event; clicking a submit control later is `Click.submit`. -/

/-- A table cell: its text content and whether it holds an `<a>` link. -/
structure Cell where
  text : String
  hasLink : Bool
deriving Repr, DecidableEq

/-- A table row, as the list of its `td` cells.  Its `textContent` is the
concatenation of the cell texts. -/
structure Row where
  cells : List Cell
deriving Repr, DecidableEq

/-- Page actions the attempt can invoke: the slot action link
(`link.click()`) and a submit control (`elem.click()` / `form.submit()`). -/
inductive Click where
  | slot
  | submit
deriving Repr, DecidableEq

/-- The object literal returned by the in-page scan.  Absent JavaScript
fields are represented by the default `false` / `""`. -/
structure ScanResult where
  found : Bool := false
  booked : Bool := false
  alreadyBooked : Bool := false
  isWaiting : Bool := false
  unavailable : Bool := false
  isWaitingOnly : Bool := false
  needSubmit : Bool := false
  message : String := ""
deriving Repr, DecidableEq

/-- `row.textContent`: concatenation of the cell texts. -/
def rowText (r : Row) : String :=
  String.join (r.cells.map (fun c => c.text))

/-- Row filter of the scan: mentions 09:30 (or 9:30) and is not an
afternoon (오후 / PM) row. -/
def rowFilter (r : Row) : Bool :=
  (includes (rowText r) "09:30" || includes (rowText r) "9:30") &&
    !includes (rowText r) "오후" && !includes (rowText r) "PM"

/-- Leading-whitespace removal on a character list. -/
def dropSpaces : List Char → List Char
  | [] => []
  | c :: cs =>
    if c == ' ' || c == '\n' || c == '\t' || c == '\r' then dropSpaces cs
    else c :: cs

/-- JavaScript `s.trim()`: strip whitespace from both ends. -/
def jsTrim (s : String) : String :=
  ⟨(dropSpaces (dropSpaces s.data.reverse)).reverse⟩

/-- Time-cell test applied to the trimmed cell text. -/
def isTimeCell (cellText : String) : Bool :=
  cellText == "오전 09:30" || cellText == "오전 9:30" ||
    includes cellText "09:30" || includes cellText "9:30"

/-- Placeholder cell used for (unreachable) out-of-range indexing. -/
def emptyCell : Cell := { text := "", hasLink := false }

/-- Action-cell selection: the cell after the time cell at index `j` when its
text mentions 예약 / 대기 / 완료 / 불가, otherwise the last cell of the row. -/
def actionCellOf (cells : List Cell) (j : Nat) : Cell :=
  let lastCell := cells.getD (cells.length - 1) emptyCell
  if j < cells.length - 1 then
    let nextCell := cells.getD (j + 1) emptyCell
    if includes nextCell.text "예약" || includes nextCell.text "대기" ||
        includes nextCell.text "완료" || includes nextCell.text "불가" then
      nextCell
    else lastCell
  else lastCell

/-- Scan result for a slot that is already booked (or wait-listed). -/
def alreadyBookedResult (w : Bool) : ScanResult :=
  { found := true, booked := false, alreadyBooked := true, isWaiting := w,
    message := "09:30 수업 이미 " ++ (if w then "대기예약" else "예약") ++ " 완료" }

/-- Branching of the scan on the trimmed action-cell text, v6.1 order:
already booked (예약완료 / 대기완료 / 삭제 / 취소), then 예약하기 (book now,
click + submit pending), then 대기예약 (join waitlist, click only), then
예약불가 (unavailable).  `none` means the inner loop breaks and the outer
row loop continues. -/
def classifyAction (actionText : String) (hasLink : Bool) :
    Option (List Click × ScanResult) :=
  if includes actionText "예약완료" || includes actionText "대기완료" ||
      includes actionText "삭제" || includes actionText "취소" then
    some ([], alreadyBookedResult (includes actionText "대기완료"))
  else if includes actionText "예약하기" then
    if hasLink then
      some ([Click.slot],
        { found := true, booked := true, message := "09:30 수업 예약 클릭",
          needSubmit := true })
    else none
  else if includes actionText "대기예약" then
    if hasLink then
      some ([Click.slot],
        { found := true, booked := true, message := "09:30 수업 대기예약 클릭",
          isWaitingOnly := true, needSubmit := false })
    else none
  else if includes actionText "예약불가" then
    some ([], { found := true, booked := false, unavailable := true,
                message := "09:30 수업 예약불가 (정원 초과)" })
  else none

/-- Inner cell loop: the first time cell of the row determines the action
cell; the row yields `none` when no time cell matches or the action text
matches no branch. -/
def scanCells (cells : List Cell) : Option (List Click × ScanResult) :=
  match (List.range cells.length).find?
      (fun j => isTimeCell (jsTrim (cells.getD j emptyCell).text)) with
  | none => none
  | some j =>
      classifyAction (jsTrim (actionCellOf cells j).text)
        (actionCellOf cells j).hasLink

/-- Scan result when no 09:30 row is found. -/
def notFoundResult : ScanResult :=
  { found := false, booked := false, message := "09:30 수업을 찾을 수 없음" }

/-- The full row loop of the in-page scan: first row that passes the filter,
has at least three cells, and classifies, determines the result. -/
def scanRows : List Row → List Click × ScanResult
  | [] => ([], notFoundResult)
  | r :: rest =>
    if rowFilter r && decide (3 ≤ r.cells.length) then
      match scanCells r.cells with
      | some out => out
      | none => scanRows rest
    else scanRows rest

/-! ## The booking attempt (v6.1 `find0930ClassAndBook`) -/

/-- The page as the attempt sees it: the table rows, whether a submit
control (matching 예약 / 확인 / 등록 / Submit, or any form) exists, and the
dialog messages the page raises once the slot action has been invoked. -/
structure Page where
  rows : List Row
  submitFindable : Bool
  dialogs : List String
deriving Repr, DecidableEq

/-- One booking attempt, v6.1 `find0930ClassAndBook` after the scan:
clears the conflict flag, scans, then
* unavailable → return as-is;
* already booked → mark success (and waiting when the scan says so), return;
* booked: waitlist-only returns after the confirm dialog; a book-now result
  with submit pending (outside test mode) clicks a submit control when one is
  found and then raises the conflict error when the conflict flag was set by
  a dialog; otherwise the scan result is returned.
Returns the outcome (ordinary result or raised error), the flags after the
attempt, and the click trace. -/
def find0930ClassAndBook (page : Page) (flags0 : Flags) (testMode : Bool) :
    Except String ScanResult × Flags × List Click :=
  let flags1 := attemptFlagReset flags0
  let clicks := (scanRows page.rows).1
  let result := (scanRows page.rows).2
  if result.unavailable then (Except.ok result, flags1, clicks)
  else if result.alreadyBooked then
    (Except.ok result,
      { flags1 with bookingSuccess := true, isWaitingReservation := flags1.isWaitingReservation || result.isWaiting },
      clicks)
  else if result.booked then
    let flags2 := (processDialogs ⟨flags1, false⟩ page.dialogs).flags
    if result.isWaitingOnly then (Except.ok result, flags2, clicks)
    else if result.needSubmit && !testMode then
      if page.submitFindable then
        if flags2.hasConflictError then
          (Except.error "동시신청 충돌 발생", flags2, clicks ++ [Click.submit])
        else (Except.ok result, flags2, clicks ++ [Click.submit])
      else (Except.ok result, flags2, clicks)
    else (Except.ok result, flags2, clicks)
  else (Except.ok result, flags1, clicks)

/-! ## Day gate (`init`)

The v6.1 `init` decides from the CURRENT KST weekday: outside test mode and
the force execution modes, running on Friday (5) or Saturday (6) writes a
WEEKEND_SKIP result and exits with code 0 before any browser work.  The
earlier `PilatesBooking` and GitHub variants instead applied `isWeekend` to
the TARGET date (current + 7 days). -/

/-- Outcome of the weekend check in `init`. -/
inductive GateDecision where
  | weekendSkip (message : String)
  | proceed
deriving Repr, DecidableEq

/-- The v6.1 weekend gate: a function of the current weekday
(0 = Sunday .. 6 = Saturday), test mode, and execution mode. -/
def initGate (testMode : Bool) (executionMode : String) (currentDayOfWeek : Nat) :
    GateDecision :=
  if !testMode && executionMode != "force" && executionMode != "manual-force" then
    if currentDayOfWeek == 5 then GateDecision.weekendSkip "금요일 → 토요일 예약 스킵"
    else if currentDayOfWeek == 6 then GateDecision.weekendSkip "토요일 → 일요일 예약 스킵"
    else GateDecision.proceed
  else GateDecision.proceed

/-- `isWeekend` of the earlier variants: Sunday (0) or Saturday (6). -/
def isWeekend (dayOfWeek : Nat) : Bool :=
  dayOfWeek == 0 || dayOfWeek == 6

/-- Weekday of the target date, current + 7 days: the same weekday number. -/
def targetDayOfWeek (currentDayOfWeek : Nat) : Nat :=
  (currentDayOfWeek + 7) % 7

/-- The earlier (PilatesBooking / GitHub-optimized) weekend gate: applies
`isWeekend` to the target date and ignores the execution mode. -/
def targetDateGate (currentDayOfWeek : Nat) : GateDecision :=
  if isWeekend (targetDayOfWeek currentDayOfWeek) then
    GateDecision.weekendSkip "주말 예약 건너뛰기"
  else GateDecision.proceed

/-! ## Retry controller (`run`)

The `run` loop of v6.1 / the GitHub variant: while `retryCount < maxRetries`
and not successful, perform one attempt.  A result with
`booked || alreadyBooked || unavailable` is terminal: a result record is
written with the current `retryCount` and the loop ends.  Anything else
(scan miss, attempt errors such as the conflict throw) is caught, increments
`retryCount`, and retries.  Exhaustion writes a FAILED record carrying
`retryCount = maxRetries` and exits with code 1.

An attempt is abstracted by its outcome: the returned scan result together
with the flags after the attempt, or a thrown error message.  The loop is
driven by a stream `outcomes : Nat → AttemptOutcome` giving the outcome of
the i-th attempt; the fuel argument equals `maxRetries - retryCount`, so
running out of fuel is exactly the loop guard failing. -/

/-- Outcome of one booking attempt as seen by the retry loop. -/
inductive AttemptOutcome where
  | ok (r : ScanResult) (st : Flags)
  | err (message : String)
deriving Repr, DecidableEq

/-- The final record of a run, restricted to the fields the claims speak
about: persisted status string, persisted retry count, number of attempts
made, and the process exit code. -/
structure RunRecord where
  status : String
  retryCount : Nat
  attemptsMade : Nat
  exitCode : Nat
deriving Repr, DecidableEq

/-- Status string persisted on a terminal attempt result (v6.1 `run`). -/
def statusOf (testMode : Bool) (r : ScanResult) (st : Flags) : String :=
  if testMode then "TEST"
  else if r.unavailable then "UNAVAILABLE"
  else if r.alreadyBooked then
    (if r.isWaiting then "ALREADY_WAITING" else "ALREADY_BOOKED")
  else if st.isWaitingReservation then "WAITING"
  else "SUCCESS"

/-- The retry loop.  `fuel` maintains `fuel = maxRetries - retryCount`;
`idx` counts attempts already made. -/
def runLoopAux (testMode : Bool) (maxRetries : Nat)
    (outcomes : Nat → AttemptOutcome) : Nat → Nat → Nat → RunRecord
  | 0, idx, _ => { status := "FAILED", retryCount := maxRetries, attemptsMade := idx, exitCode := 1 }
  | fuel + 1, idx, retryCount =>
    match outcomes idx with
    | AttemptOutcome.ok r st =>
      if r.booked || r.alreadyBooked || r.unavailable then
        { status := statusOf testMode r st, retryCount := retryCount, attemptsMade := idx + 1, exitCode := 0 }
      else runLoopAux testMode maxRetries outcomes fuel (idx + 1) (retryCount + 1)
    | AttemptOutcome.err _ =>
      runLoopAux testMode maxRetries outcomes fuel (idx + 1) (retryCount + 1)

/-- A whole v6.1 run: the day gate, then (when it passes) the retry loop
started with `retryCount = 0`.  A weekend skip writes the WEEKEND_SKIP
record and exits 0 before any attempt (`attemptsMade = 0`). -/
def v61Run (testMode : Bool) (executionMode : String) (currentDayOfWeek : Nat)
    (maxRetries : Nat) (outcomes : Nat → AttemptOutcome) : RunRecord :=
  match initGate testMode executionMode currentDayOfWeek with
  | GateDecision.weekendSkip _ =>
    { status := "WEEKEND_SKIP", retryCount := 0, attemptsMade := 0, exitCode := 0 }
  | GateDecision.proceed =>
    runLoopAux testMode maxRetries outcomes maxRetries 0 0

/-! ## Retry backoff of the `PilatesBooking` variant

On a caught attempt error with retries remaining, that variant picks the
delay from the error message: a simultaneous-request (동시신청) conflict gets
`3000 + Math.floor(Math.random() * 2000)` milliseconds — the random draw is
modelled by an arbitrary natural `rand` reduced mod 2000 — a timeout
(시간초과) gets 2000, a time-selection error (타임 선택) gets 1000, anything
else the fixed `retryDelay` baseline. -/

/-- `this.retryDelay` of the `PilatesBooking` constructor. -/
def pbRetryDelay : Nat := 1000

/-- Backoff delay (milliseconds) chosen by the `PilatesBooking` retry
loop for the caught error `errMsg`, given the random draw `rand`. -/
def pbBackoffDelay (errMsg : String) (rand : Nat) : Nat :=
  if includes errMsg "동시신청" then 3000 + rand % 2000
  else if includes errMsg "시간초과" then 2000
  else if includes errMsg "타임 선택" then 1000
  else pbRetryDelay

/-- Backoff delay of the v6.1 and GitHub-optimized retry loops: always the
fixed `this.retryDelay = 500`, whatever the error was. -/
def v61BackoffDelay (errMsg : String) : Nat :=
  let _ := errMsg
  500

/-! ## The second-granularity precise-wait loop (`waitUntilTargetTime`)

One iteration of the final `while (true)` loop: reach the target when the
hour and minute match and the seconds are past the target second; break out
early when the time-of-day total is beyond the target total AND the current
hour is below 23 (the hour-23 guard protects a past-midnight target from a
premature break); otherwise sleep 200 ms / 1 s / 2 s depending on the
remaining seconds and loop again. -/

/-- What one iteration of the fine wait loop does. -/
inductive FineWaitOutcome where
  | reached
  | passedExit
  | sleep (ms : Nat)
deriving Repr, DecidableEq

/-- One iteration of the second-granularity wait loop, as a function of the
target time-of-day and the current time-of-day. -/
def fineWaitStep (targetHour targetMinute targetSecond h m s : Nat) :
    FineWaitOutcome :=
  if h == targetHour && m == targetMinute && decide (targetSecond ≤ s) then
    FineWaitOutcome.reached
  else
    let currentTotal := h * 3600 + m * 60 + s
    let targetTotal := targetHour * 3600 + targetMinute * 60 + targetSecond
    if decide (targetTotal < currentTotal) && decide (h < 23) then
      FineWaitOutcome.passedExit
    else
      let remaining : Int := (targetTotal : Int) - (currentTotal : Int)
      if remaining ≤ 10 && 0 < remaining then FineWaitOutcome.sleep 200
      else if remaining ≤ 30 then FineWaitOutcome.sleep 1000
      else FineWaitOutcome.sleep 2000

/-! ## Claim theorems -/

/-- Claim C2: day gate.  In non-test, non-force mode a run launched on
Friday (5) or Saturday (6) terminates with a WEEKEND_SKIP record, exit code
0, and zero attempts; on Sunday through Thursday the run proceeds into the
retry loop; with test mode or a force execution mode the gate always
passes.  The final conjunct shows the decision follows the v6.1
current-weekday rule and not the target-date rule of the earlier variants:
the two gates disagree on Sunday (0) and on Friday (5). -/
theorem c2_day_gate_current_weekday (testMode : Bool) (mode : String)
    (d maxRetries : Nat) (outcomes : Nat → AttemptOutcome) :
    (testMode = false → mode ≠ "force" → mode ≠ "manual-force" →
      ((d = 5 ∨ d = 6) →
        v61Run testMode mode d maxRetries outcomes =
          { status := "WEEKEND_SKIP", retryCount := 0, attemptsMade := 0, exitCode := 0 }) ∧
      (d ≤ 4 →
        v61Run testMode mode d maxRetries outcomes =
          runLoopAux testMode maxRetries outcomes maxRetries 0 0)) ∧
    ((testMode = true ∨ mode = "force" ∨ mode = "manual-force") →
      v61Run testMode mode d maxRetries outcomes =
        runLoopAux testMode maxRetries outcomes maxRetries 0 0) ∧
    (initGate false "normal" 0 = GateDecision.proceed ∧
      targetDateGate 0 = GateDecision.weekendSkip "주말 예약 건너뛰기" ∧
      initGate false "normal" 5 = GateDecision.weekendSkip "금요일 → 토요일 예약 스킵" ∧
      targetDateGate 5 = GateDecision.proceed) := by
  refine ⟨?_, ?_, by decide⟩
  · intro h1 h2 h3
    subst h1
    constructor
    · rintro (rfl | rfl) <;>
        simp [v61Run, initGate, bne_iff_ne, h2, h3]
    · intro hd
      have h5 : d ≠ 5 := by omega
      have h6 : d ≠ 6 := by omega
      simp [v61Run, initGate, bne_iff_ne, h2, h3, h5, h6]
  · rintro (rfl | rfl | rfl) <;> simp [v61Run, initGate]

/-- Witness for C2 at concrete inputs: Friday skip, Sunday proceed, test
mode proceed on Saturday. -/
theorem c2_day_gate_current_weekday_witness :
    v61Run false "normal" 5 2 (fun _ => AttemptOutcome.err "e") =
      { status := "WEEKEND_SKIP", retryCount := 0, attemptsMade := 0, exitCode := 0 } ∧
    v61Run false "normal" 0 2 (fun _ => AttemptOutcome.err "e") =
      runLoopAux false 2 (fun _ => AttemptOutcome.err "e") 2 0 0 ∧
    v61Run true "normal" 6 2 (fun _ => AttemptOutcome.err "e") =
      runLoopAux true 2 (fun _ => AttemptOutcome.err "e") 2 0 0 := by
  refine ⟨?_, ?_, ?_⟩
  · exact ((c2_day_gate_current_weekday false "normal" 5 2 _).1 rfl
      (by decide) (by decide)).1 (Or.inl rfl)
  · exact ((c2_day_gate_current_weekday false "normal" 0 2 _).1 rfl
      (by decide) (by decide)).2 (by omega)
  · exact (c2_day_gate_current_weekday true "normal" 6 2 _).2.1 (Or.inl rfl)

/-- Claim C3 counterexample: the claim says all four flags are reset to
false at the start of every attempt.  In the code only the error flags are
cleared: starting an attempt with `bookingSuccess` and
`isWaitingReservation` still true from an earlier attempt leaves them true
— here shown both on the reset itself and through a full attempt on an
empty page. -/
theorem c3_attempt_reset_counterexample :
    attemptFlagReset
        { bookingSuccess := true, isWaitingReservation := true, hasConflictError := true, hasTimeoutError := false } ≠
      constructorFlags ∧
    (find0930ClassAndBook { rows := [], submitFindable := false, dialogs := [] }
        { bookingSuccess := true, isWaitingReservation := true, hasConflictError := false, hasTimeoutError := false }
        false).2.1.bookingSuccess = true ∧
    (find0930ClassAndBook { rows := [], submitFindable := false, dialogs := [] }
        { bookingSuccess := true, isWaitingReservation := true, hasConflictError := false, hasTimeoutError := false }
        false).2.1.isWaitingReservation = true := by
  decide

/-- Claim C3 (amended): at the start of every booking attempt only the
error flags are re-initialised — `hasConflictError` in v6.1, plus
`hasTimeoutError` in the PilatesBooking / GitHub variants — while
`bookingSuccess` and `isWaitingReservation` are set to false once by the
constructor and are NOT reset per attempt, so their values persist across
retries. -/
theorem c3_attempt_reset_amended (f : Flags) :
    (attemptFlagReset f).hasConflictError = false ∧
    (attemptFlagReset f).bookingSuccess = f.bookingSuccess ∧
    (attemptFlagReset f).isWaitingReservation = f.isWaitingReservation ∧
    (attemptFlagReset f).hasTimeoutError = f.hasTimeoutError ∧
    (attemptFlagResetPB f).hasConflictError = false ∧
    (attemptFlagResetPB f).hasTimeoutError = false ∧
    (attemptFlagResetPB f).bookingSuccess = f.bookingSuccess ∧
    (attemptFlagResetPB f).isWaitingReservation = f.isWaitingReservation ∧
    constructorFlags.bookingSuccess = false ∧
    constructorFlags.isWaitingReservation = false ∧
    constructorFlags.hasConflictError = false ∧
    constructorFlags.hasTimeoutError = false :=
  ⟨rfl, rfl, rfl, rfl, rfl, rfl, rfl, rfl, rfl, rfl, rfl, rfl⟩

/-- Claim C4: any attempt result with `booked`, `alreadyBooked` or
`unavailable` — covering Booked, Waitlisted, AlreadyBooked and Unavailable
— is terminal: the retry loop (with its guard still open, fuel + 1) stops
right there with a success record (exit code 0), the current retry count,
and no further attempt: the returned record depends only on the attempt at
index `idx`. -/
theorem c4_terminal_outcomes (testMode : Bool)
    (maxRetries fuel idx retryCount : Nat) (outcomes : Nat → AttemptOutcome)
    (r : ScanResult) (st : Flags)
    (hout : outcomes idx = AttemptOutcome.ok r st)
    (hterm : (r.booked || r.alreadyBooked || r.unavailable) = true) :
    runLoopAux testMode maxRetries outcomes (fuel + 1) idx retryCount =
      { status := statusOf testMode r st, retryCount := retryCount, attemptsMade := idx + 1, exitCode := 0 } := by
  simp [runLoopAux, hout, hterm]

/-- Witness for C4: an Unavailable attempt result ends the loop on the
first attempt with an UNAVAILABLE success record. -/
theorem c4_terminal_outcomes_witness :
    runLoopAux false 2
        (fun _ => AttemptOutcome.ok
          { found := true, booked := false, unavailable := true, message := "09:30 수업 예약불가 (정원 초과)" }
          constructorFlags) 2 0 0 =
      { status := "UNAVAILABLE", retryCount := 0, attemptsMade := 1, exitCode := 0 } := by
  have h := c4_terminal_outcomes false 2 1 0 0
    (fun _ => AttemptOutcome.ok
      { found := true, booked := false, unavailable := true, message := "09:30 수업 예약불가 (정원 초과)" }
      constructorFlags)
    { found := true, booked := false, unavailable := true, message := "09:30 수업 예약불가 (정원 초과)" }
    constructorFlags rfl (by decide)
  simpa [statusOf] using h

/-- Claim C5: retry backoff of the `PilatesBooking` controller.  For any
retryable failure that is not a simultaneous-request conflict the delay is
fixed — independent of the random draw — and short (at most 2000 ms);
exactly on a conflict the delay is randomized, `3000 + rand % 2000`, which
ranges over the whole multi-second window [3000 ms, 5000 ms): every delay
in the window is attained by some draw. -/
theorem c5_conflict_backoff_jitter (errMsg : String) (rand rand2 : Nat) :
    (includes errMsg "동시신청" = false →
      pbBackoffDelay errMsg rand = pbBackoffDelay errMsg rand2 ∧
      pbBackoffDelay errMsg rand ≤ 2000) ∧
    (includes errMsg "동시신청" = true →
      pbBackoffDelay errMsg rand = 3000 + rand % 2000 ∧
      3000 ≤ pbBackoffDelay errMsg rand ∧
      pbBackoffDelay errMsg rand < 5000) ∧
    (includes errMsg "동시신청" = true → ∀ d, 3000 ≤ d → d < 5000 →
      ∃ rand0, pbBackoffDelay errMsg rand0 = d) := by
  refine ⟨?_, ?_, ?_⟩
  · intro h
    refine ⟨by simp [pbBackoffDelay, h], ?_⟩
    simp only [pbBackoffDelay, h, Bool.false_eq_true, if_false]
    split
    · omega
    · split
      · omega
      · simp [pbRetryDelay]
  · intro h
    have e : pbBackoffDelay errMsg rand = 3000 + rand % 2000 := by
      simp [pbBackoffDelay, h]
    have hm : rand % 2000 < 2000 := Nat.mod_lt rand (by omega)
    exact ⟨e, by rw [e]; omega, by rw [e]; omega⟩
  · intro h d hd1 hd2
    have e : pbBackoffDelay errMsg (d - 3000) = 3000 + (d - 3000) % 2000 := by
      simp [pbBackoffDelay, h]
    have hm : (d - 3000) % 2000 = d - 3000 := Nat.mod_eq_of_lt (by omega)
    refine ⟨d - 3000, ?_⟩
    rw [e, hm]
    omega

/-- Witness for C5: a conflict message gets the jittered delay (3321 ms for
draw 4321, 4999 ms attainable), a timeout message gets the fixed 2000 ms
whatever the draw. -/
theorem c5_conflict_backoff_jitter_witness :
    pbBackoffDelay "동시신청 충돌" 4321 = 3000 + 4321 % 2000 ∧
    (∃ rand0, pbBackoffDelay "동시신청 충돌" rand0 = 4999) ∧
    pbBackoffDelay "시간초과" 4321 = pbBackoffDelay "시간초과" 77 := by
  refine ⟨?_, ?_, ?_⟩
  · exact ((c5_conflict_backoff_jitter "동시신청 충돌" 4321 77).2.1 (by decide)).1
  · exact (c5_conflict_backoff_jitter "동시신청 충돌" 4321 77).2.2 (by decide)
      4999 (by omega) (by omega)
  · exact ((c5_conflict_backoff_jitter "시간초과" 4321 77).1 (by decide)).1

/-- Claim C8 counterexample: the claim says the fine wait loop proceeds
immediately as soon as the current time-of-day has passed the target.  With
target 23:00:00 and current time 23:59:59 the target is passed (the
time-of-day total is larger) yet the loop iteration sleeps 1000 ms and
keeps waiting, because the passed-check carries the guard
`currentHour < 23`. -/
theorem c8_fine_wait_counterexample :
    23 * 3600 + 0 * 60 + 0 < 23 * 3600 + 59 * 60 + 59 ∧
    fineWaitStep 23 0 0 23 59 59 = FineWaitOutcome.sleep 1000 := by
  decide

/-- Claim C8 (amended): one iteration of the second-granularity wait loop
exits with `reached` exactly when the current hour and minute equal the
target hour and minute and the seconds are at or past the target second;
failing that, it exits with the passed-target break exactly when the
current time-of-day total exceeds the target total AND the current hour is
below 23 (the hour-23 guard keeps a run started at 23:xx waiting for a
past-midnight target; as a side effect, a target inside hour 23 that has
been passed is waited for again rather than fired immediately); in every
other case the iteration sleeps and loops. -/
theorem c8_fine_wait_exit_amended (tH tM tS h m s : Nat) :
    (fineWaitStep tH tM tS h m s = FineWaitOutcome.reached ↔
      (h = tH ∧ m = tM ∧ tS ≤ s)) ∧
    (¬(h = tH ∧ m = tM ∧ tS ≤ s) →
      (fineWaitStep tH tM tS h m s = FineWaitOutcome.passedExit ↔
        (tH * 3600 + tM * 60 + tS < h * 3600 + m * 60 + s ∧ h < 23))) ∧
    (¬(h = tH ∧ m = tM ∧ tS ≤ s) →
      ¬(tH * 3600 + tM * 60 + tS < h * 3600 + m * 60 + s ∧ h < 23) →
      ∃ ms, fineWaitStep tH tM tS h m s = FineWaitOutcome.sleep ms) := by
  by_cases hmatch : h = tH ∧ m = tM ∧ tS ≤ s
  · have hb : (h == tH && (m == tM) && decide (tS ≤ s)) = true := by
      simp [hmatch.1, hmatch.2.1, hmatch.2.2]
    have hstep : fineWaitStep tH tM tS h m s = FineWaitOutcome.reached := by
      simp [fineWaitStep, hb]
    refine ⟨?_, fun hc => absurd hmatch hc, fun hc => absurd hmatch hc⟩
    rw [hstep]
    exact ⟨fun _ => hmatch, fun _ => rfl⟩
  · have hb : (h == tH && (m == tM) && decide (tS ≤ s)) = false := by
      cases hB : (h == tH && (m == tM) && decide (tS ≤ s)) with
      | false => rfl
      | true =>
        rw [Bool.and_eq_true, Bool.and_eq_true] at hB
        exact absurd ⟨by simpa using hB.1.1, by simpa using hB.1.2,
          of_decide_eq_true hB.2⟩ hmatch
    cases hP : (decide (tH * 3600 + tM * 60 + tS < h * 3600 + m * 60 + s) && decide (h < 23)) with
    | true =>
      rw [Bool.and_eq_true] at hP
      have hp1 := of_decide_eq_true hP.1
      have hp2 := of_decide_eq_true hP.2
      have hstep : fineWaitStep tH tM tS h m s = FineWaitOutcome.passedExit := by
        simp [fineWaitStep, hb, hp1, hp2]
      refine ⟨?_, ?_, ?_⟩
      · rw [hstep]
        exact ⟨fun hx => FineWaitOutcome.noConfusion hx, fun hx => absurd hx hmatch⟩
      · intro _
        rw [hstep]
        exact ⟨fun _ => ⟨hp1, hp2⟩, fun _ => rfl⟩
      · intro _ hnp
        exact absurd ⟨hp1, hp2⟩ hnp
    | false =>
      have hnp : ¬(tH * 3600 + tM * 60 + tS < h * 3600 + m * 60 + s ∧ h < 23) := by
        intro hx
        simp [hx.1, hx.2] at hP
      have hstep : ∃ ms, fineWaitStep tH tM tS h m s = FineWaitOutcome.sleep ms := by
        simp only [fineWaitStep, hb, hP, Bool.false_eq_true, if_false]
        split
        · exact ⟨200, rfl⟩
        · split
          · exact ⟨1000, rfl⟩
          · exact ⟨2000, rfl⟩
      obtain ⟨ms, hms⟩ := hstep
      refine ⟨?_, ?_, fun _ _ => ⟨ms, hms⟩⟩
      · rw [hms]
        exact ⟨fun hx => FineWaitOutcome.noConfusion hx, fun hx => absurd hx hmatch⟩
      · intro _
        rw [hms]
        exact ⟨fun hx => FineWaitOutcome.noConfusion hx, fun hx => absurd hx hnp⟩

/-- Witness for the amended C8 theorem: a passed target (00:01:00 at
00:02:00, hour below 23) exits with the passed-target break; a not-yet
reached target (00:01:00 at 00:00:30) sleeps and loops. -/
theorem c8_fine_wait_exit_amended_witness :
    fineWaitStep 0 1 0 0 2 0 = FineWaitOutcome.passedExit ∧
    (∃ ms, fineWaitStep 0 1 0 0 0 30 = FineWaitOutcome.sleep ms) := by
  constructor
  · exact ((c8_fine_wait_exit_amended 0 1 0 0 2 0).2.1 (by decide)).mpr (by decide)
  · exact (c8_fine_wait_exit_amended 0 1 0 0 0 30).2.2 (by decide) (by decide)

/-- The attempt-outcome sequence of claim C9: two conflict errors, then a
booked result. -/
def c9Outcomes : Nat → AttemptOutcome := fun i =>
  if i < 2 then AttemptOutcome.err "동시신청 충돌 발생"
  else AttemptOutcome.ok
    { found := true, booked := true, message := "09:30 수업 예약 클릭", needSubmit := true }
    constructorFlags

/-- Claim C9: with `maxRetries = 3` and outcomes
[ConflictDetected, ConflictDetected, Booked], the run makes exactly 3
attempts, ends successfully (status SUCCESS, exit code 0), and the
persisted record carries `retryCount = 2`. -/
theorem c9_retry_accounting :
    runLoopAux false 3 c9Outcomes 3 0 0 =
      { status := "SUCCESS", retryCount := 2, attemptsMade := 3, exitCode := 0 } := by
  decide

/-- Claim C6: classification of the first dialog of an attempt, in the
priority order of the source, first match terminating: capacity-exceeded
AND waitlist sets the Waitlisted flags; otherwise
weekly-booking-count-completed sets the Booked flag; otherwise
simultaneous-request OR try-again-shortly sets the conflict flag;
otherwise booking AND (complete OR success) sets the Booked flag. -/
theorem c6_dialog_classification (st : DialogState) (m : String)
    (hfresh : st.dialogHandled = false) :
    ((includes m "정원이 초과" && includes m "대기예약") = true →
      (dialogHandlerStep st m).flags =
        { st.flags with isWaitingReservation := true, bookingSuccess := true }) ∧
    ((includes m "정원이 초과" && includes m "대기예약") = false →
      includes m "요일별 예약횟수가 완료" = true →
      (dialogHandlerStep st m).flags = { st.flags with bookingSuccess := true }) ∧
    ((includes m "정원이 초과" && includes m "대기예약") = false →
      includes m "요일별 예약횟수가 완료" = false →
      (includes m "동시신청" || includes m "잠시 후") = true →
      (dialogHandlerStep st m).flags = { st.flags with hasConflictError := true }) ∧
    ((includes m "정원이 초과" && includes m "대기예약") = false →
      includes m "요일별 예약횟수가 완료" = false →
      (includes m "동시신청" || includes m "잠시 후") = false →
      (includes m "예약" && (includes m "완료" || includes m "성공")) = true →
      (dialogHandlerStep st m).flags = { st.flags with bookingSuccess := true }) := by
  refine ⟨?_, ?_, ?_, ?_⟩
  · intro h1
    simp [dialogHandlerStep, hfresh, h1]
  · intro h1 h2
    simp [dialogHandlerStep, hfresh, h1, h2]
  · intro h1 h2 h3
    simp [dialogHandlerStep, hfresh, h1, h2, h3]
  · intro h1 h2 h3 h4
    simp [dialogHandlerStep, hfresh, h1, h2, h3, h4]

/-- Witness for C6: the four rules at concrete dialog texts, from a fresh
attempt state. -/
theorem c6_dialog_classification_witness :
    (dialogHandlerStep ⟨constructorFlags, false⟩
        "정원이 초과되었습니다. 대기예약을 하시겠습니까?").flags =
      { constructorFlags with isWaitingReservation := true, bookingSuccess := true } ∧
    (dialogHandlerStep ⟨constructorFlags, false⟩
        "회원님은 요일별 예약횟수가 완료되었습니다").flags =
      { constructorFlags with bookingSuccess := true } ∧
    (dialogHandlerStep ⟨constructorFlags, false⟩
        "동시신청 오류입니다. 잠시 후 다시 시도하세요").flags =
      { constructorFlags with hasConflictError := true } ∧
    (dialogHandlerStep ⟨constructorFlags, false⟩
        "예약이 완료되었습니다").flags =
      { constructorFlags with bookingSuccess := true } := by
  refine ⟨?_, ?_, ?_, ?_⟩
  · exact (c6_dialog_classification ⟨constructorFlags, false⟩
      "정원이 초과되었습니다. 대기예약을 하시겠습니까?" rfl).1 (by decide)
  · exact (c6_dialog_classification ⟨constructorFlags, false⟩
      "회원님은 요일별 예약횟수가 완료되었습니다" rfl).2.1 (by decide) (by decide)
  · exact (c6_dialog_classification ⟨constructorFlags, false⟩
      "동시신청 오류입니다. 잠시 후 다시 시도하세요" rfl).2.2.1 (by decide) (by decide) (by decide)
  · exact (c6_dialog_classification ⟨constructorFlags, false⟩
      "예약이 완료되었습니다" rfl).2.2.2 (by decide) (by decide) (by decide) (by decide)

/-- After a fresh state handles one dialog, the handled marker is set. -/
theorem dialogHandlerStep_sets_handled (st : DialogState) (m : String)
    (hfresh : st.dialogHandled = false) :
    (dialogHandlerStep st m).dialogHandled = true := by
  simp only [dialogHandlerStep, hfresh, Bool.false_eq_true, if_false]
  split
  · rfl
  · split
    · rfl
    · split
      · rfl
      · split <;> rfl

/-- A handled state absorbs any further dialogs. -/
theorem processDialogs_handled (msgs : List String) (st : DialogState)
    (hdone : st.dialogHandled = true) :
    processDialogs st msgs = st := by
  induction msgs generalizing st with
  | nil => rfl
  | cons m rest ih =>
    have hstep : dialogHandlerStep st m = st := by
      simp [dialogHandlerStep, hdone]
    simp only [processDialogs, List.foldl_cons, hstep]
    exact ih st hdone

/-- Claim C7: only the first dialog of an attempt is classified.  A state
that has already handled a dialog is returned unchanged by every further
dialog; from a fresh state, handling the first dialog sets the
handled marker, and processing a whole dialog sequence equals processing
just its first element — the subsequent dialogs change nothing. -/
theorem c7_first_dialog_only (st : DialogState) (m : String)
    (rest : List String) :
    (st.dialogHandled = true → dialogHandlerStep st m = st) ∧
    (st.dialogHandled = false →
      (dialogHandlerStep st m).dialogHandled = true ∧
      processDialogs st (m :: rest) = dialogHandlerStep st m) := by
  constructor
  · intro hdone
    simp [dialogHandlerStep, hdone]
  · intro hfresh
    have hset := dialogHandlerStep_sets_handled st m hfresh
    refine ⟨hset, ?_⟩
    show processDialogs (dialogHandlerStep st m) rest = dialogHandlerStep st m
    exact processDialogs_handled rest _ hset

/-- Witness for C7: a handled state ignores a success dialog that would
otherwise set flags, and a two-dialog sequence equals its first dialog
alone. -/
theorem c7_first_dialog_only_witness :
    dialogHandlerStep ⟨constructorFlags, true⟩ "예약이 완료되었습니다" =
      ⟨constructorFlags, true⟩ ∧
    processDialogs ⟨constructorFlags, false⟩
        ["동시신청 오류입니다", "예약이 완료되었습니다"] =
      dialogHandlerStep ⟨constructorFlags, false⟩ "동시신청 오류입니다" := by
  constructor
  · exact (c7_first_dialog_only ⟨constructorFlags, true⟩ "예약이 완료되었습니다" []).1 rfl
  · exact ((c7_first_dialog_only ⟨constructorFlags, false⟩ "동시신청 오류입니다"
      ["예약이 완료되었습니다"]).2 rfl).2

/-- A scan branch whose result reports `alreadyBooked` can only be the
already-booked branch: no click, `isWaiting` read off the action text. -/
theorem classifyAction_already (t : String) (l : Bool)
    (out : List Click × ScanResult) (h : classifyAction t l = some out)
    (hb : out.2.alreadyBooked = true) :
    out = ([], alreadyBookedResult (includes t "대기완료")) := by
  unfold classifyAction at h
  split at h
  · injection h with h
    exact h.symm
  · split at h
    · split at h
      · injection h with h
        rw [← h] at hb
        exact absurd hb (by decide)
      · exact absurd h (by simp)
    · split at h
      · split at h
        · injection h with h
          rw [← h] at hb
          exact absurd hb (by decide)
        · exact absurd h (by simp)
      · split at h
        · injection h with h
          rw [← h] at hb
          exact absurd hb (by decide)
        · exact absurd h (by simp)

/-- Any positive answer of the inner cell loop comes from the action-text
branching. -/
theorem scanCells_some (cells : List Cell) (out : List Click × ScanResult)
    (h : scanCells cells = some out) :
    ∃ t l, classifyAction t l = some out := by
  unfold scanCells at h
  split at h
  · exact absurd h (by simp)
  · exact ⟨_, _, h⟩

/-- When the scan reports an already-booked slot, no click was performed
and the result is not the unavailable one. -/
theorem scanRows_alreadyBooked_shape (rows : List Row)
    (hb : (scanRows rows).2.alreadyBooked = true) :
    (scanRows rows).1 = [] ∧ (scanRows rows).2.unavailable = false := by
  induction rows with
  | nil => exact absurd hb (by decide)
  | cons r rest ih =>
    by_cases hf : (rowFilter r && decide (3 ≤ r.cells.length)) = true
    · rw [scanRows, if_pos hf] at hb ⊢
      cases hsc : scanCells r.cells with
      | none =>
        rw [hsc] at hb
        exact ih hb
      | some out =>
        rw [hsc] at hb
        obtain ⟨t, l, hca⟩ := scanCells_some r.cells out hsc
        have hshape := classifyAction_already t l out hca hb
        rw [hshape]
        exact ⟨rfl, by simp [alreadyBookedResult]⟩
    · rw [scanRows, if_neg hf] at hb ⊢
      exact ih hb

deriving instance DecidableEq for Except

/-- Claim C1: the duplicate-booking guard.  First part: an action cell
whose text reads reservation-complete (예약완료), waitlist-complete
(대기완료) or cancel-available (취소) classifies as already-booked with no
click, and its `isWaiting` flag is true exactly when the text carries the
waitlist-complete marker.  Second part: whenever the scan reports an
already-booked slot, the whole attempt returns that result as an ordinary
(non-error) outcome, marks success (waiting if and only if the scan said
so), and its click trace is empty — no slot link and no submit control was
invoked. -/
theorem c1_duplicate_booking_guard (t : String) (hasLink : Bool)
    (page : Page) (flags : Flags) (testMode : Bool) :
    ((includes t "예약완료" || includes t "대기완료" || includes t "취소") = true →
      classifyAction t hasLink =
        some ([], alreadyBookedResult (includes t "대기완료"))) ∧
    ((scanRows page.rows).2.alreadyBooked = true →
      find0930ClassAndBook page flags testMode =
        (Except.ok (scanRows page.rows).2,
          { attemptFlagReset flags with bookingSuccess := true, isWaitingReservation := (attemptFlagReset flags).isWaitingReservation || (scanRows page.rows).2.isWaiting },
          [])) := by
  constructor
  · intro h
    have h4 : (includes t "예약완료" || includes t "대기완료" ||
        includes t "삭제" || includes t "취소") = true := by
      simp only [Bool.or_eq_true] at h ⊢
      tauto
    simp [classifyAction, h4]
  · intro hb
    obtain ⟨hcl, hun⟩ := scanRows_alreadyBooked_shape page.rows hb
    simp [find0930ClassAndBook, hb, hcl, hun]

/-- Witness for C1: a reservation-complete cell classifies as already
booked without waiting and with no click; a full attempt on a page whose
09:30 action cell reads waitlist-complete returns the already-booked
result (waiting), sets the success and waiting flags, and clicks
nothing — although a submit control was available and a book-now link
would have been clickable. -/
theorem c1_duplicate_booking_guard_witness :
    classifyAction "예약완료" true = some ([], alreadyBookedResult false) ∧
    find0930ClassAndBook
        { rows := [⟨[⟨"오전 09:30", false⟩, ⟨"대기완료", true⟩, ⟨"강사", false⟩]⟩],
          submitFindable := true, dialogs := [] }
        constructorFlags false =
      (Except.ok (alreadyBookedResult true),
        { bookingSuccess := true, isWaitingReservation := true, hasConflictError := false, hasTimeoutError := false },
        []) := by
  constructor
  · exact ((c1_duplicate_booking_guard "예약완료" true
      { rows := [], submitFindable := false, dialogs := [] }
      constructorFlags false).1 (by decide)).trans (by decide)
  · exact ((c1_duplicate_booking_guard "" false
      { rows := [⟨[⟨"오전 09:30", false⟩, ⟨"대기완료", true⟩, ⟨"강사", false⟩]⟩],
        submitFindable := true, dialogs := [] }
      constructorFlags false).2 (by decide)).trans (by decide)

/-- Claim C10: the conflict flag set by a conflict dialog is consulted only
on the book-now path right after a successful submit click.  With a scan
result that is booked (not unavailable, not already-booked), writing `df`
for the flags after the attempt dialogs were processed:
(a) on the waitlist-only path the attempt returns the ordinary result with
`df`, whatever `df.hasConflictError` is; (b) when the submit step is
skipped (`needSubmit && !testMode` false, covering test mode) likewise;
(c) when no submit control is found likewise; (d) only when a submit
control was found and clicked and `df.hasConflictError` holds does the
attempt raise the conflict error; (e) at the run level, an ordinary booked
result is terminal: the retry loop records a success outcome instead of
retrying. -/
theorem c10_conflict_flag_paths (page : Page) (flags : Flags)
    (testMode : Bool)
    (hu : (scanRows page.rows).2.unavailable = false)
    (ha : (scanRows page.rows).2.alreadyBooked = false)
    (hb : (scanRows page.rows).2.booked = true) :
    ((scanRows page.rows).2.isWaitingOnly = true →
      find0930ClassAndBook page flags testMode =
        (Except.ok (scanRows page.rows).2,
          (processDialogs ⟨attemptFlagReset flags, false⟩ page.dialogs).flags,
          (scanRows page.rows).1)) ∧
    ((scanRows page.rows).2.isWaitingOnly = false →
      ((scanRows page.rows).2.needSubmit && !testMode) = false →
      find0930ClassAndBook page flags testMode =
        (Except.ok (scanRows page.rows).2,
          (processDialogs ⟨attemptFlagReset flags, false⟩ page.dialogs).flags,
          (scanRows page.rows).1)) ∧
    ((scanRows page.rows).2.isWaitingOnly = false →
      (scanRows page.rows).2.needSubmit = true → testMode = false →
      page.submitFindable = false →
      find0930ClassAndBook page flags testMode =
        (Except.ok (scanRows page.rows).2,
          (processDialogs ⟨attemptFlagReset flags, false⟩ page.dialogs).flags,
          (scanRows page.rows).1)) ∧
    ((scanRows page.rows).2.isWaitingOnly = false →
      (scanRows page.rows).2.needSubmit = true → testMode = false →
      page.submitFindable = true →
      (processDialogs ⟨attemptFlagReset flags, false⟩ page.dialogs).flags.hasConflictError = true →
      find0930ClassAndBook page flags testMode =
        (Except.error "동시신청 충돌 발생",
          (processDialogs ⟨attemptFlagReset flags, false⟩ page.dialogs).flags,
          (scanRows page.rows).1 ++ [Click.submit])) ∧
    (∀ (maxRetries fuel idx retryCount : Nat)
        (outcomes : Nat → AttemptOutcome) (st : Flags),
      outcomes idx = AttemptOutcome.ok (scanRows page.rows).2 st →
      runLoopAux testMode maxRetries outcomes (fuel + 1) idx retryCount =
        { status := statusOf testMode (scanRows page.rows).2 st, retryCount := retryCount, attemptsMade := idx + 1, exitCode := 0 }) := by
  refine ⟨?_, ?_, ?_, ?_, ?_⟩
  · intro hw
    simp [find0930ClassAndBook, hu, ha, hb, hw]
  · intro hw hns
    simp [find0930ClassAndBook, hu, ha, hb, hw, hns]
  · intro hw hns ht hsf
    simp [find0930ClassAndBook, hu, ha, hb, hw, hns, ht, hsf]
  · intro hw hns ht hsf hc
    simp [find0930ClassAndBook, hu, ha, hb, hw, hns, ht, hsf, hc]
  · intro maxRetries fuel idx retryCount outcomes st hout
    simp [runLoopAux, hout, hb]

/-- Witness for C10: on a waitlist-only page a conflict dialog sets the
conflict flag, yet the attempt returns the ordinary click result (no error
raised, no submit click); on a book-now page with a submit control the same
conflict dialog makes the attempt raise the conflict error after the
submit click. -/
theorem c10_conflict_flag_paths_witness :
    find0930ClassAndBook
        { rows := [⟨[⟨"오전 09:30", false⟩, ⟨"대기예약", true⟩, ⟨"강사", false⟩]⟩],
          submitFindable := true, dialogs := ["동시신청 오류"] }
        constructorFlags false =
      (Except.ok { found := true, booked := true, message := "09:30 수업 대기예약 클릭", isWaitingOnly := true, needSubmit := false },
        { bookingSuccess := false, isWaitingReservation := false, hasConflictError := true, hasTimeoutError := false },
        [Click.slot]) ∧
    find0930ClassAndBook
        { rows := [⟨[⟨"오전 09:30", false⟩, ⟨"예약하기", true⟩, ⟨"강사", false⟩]⟩],
          submitFindable := true, dialogs := ["동시신청 오류"] }
        constructorFlags false =
      (Except.error "동시신청 충돌 발생",
        { bookingSuccess := false, isWaitingReservation := false, hasConflictError := true, hasTimeoutError := false },
        [Click.slot, Click.submit]) := by
  constructor
  · exact ((c10_conflict_flag_paths
      { rows := [⟨[⟨"오전 09:30", false⟩, ⟨"대기예약", true⟩, ⟨"강사", false⟩]⟩],
        submitFindable := true, dialogs := ["동시신청 오류"] }
      constructorFlags false (by decide) (by decide) (by decide)).1
      (by decide)).trans (by decide)
  · exact ((c10_conflict_flag_paths
      { rows := [⟨[⟨"오전 09:30", false⟩, ⟨"예약하기", true⟩, ⟨"강사", false⟩]⟩],
        submitFindable := true, dialogs := ["동시신청 오류"] }
      constructorFlags false (by decide) (by decide) (by decide)).2.2.2.1
      (by decide) (by decide) rfl rfl (by decide)).trans (by decide)
